import Mathlib

/-!
Verification development for the `constuneval` repository.

The repository provides `UnevalCow`, a fork of `std::borrow::Cow`
(src/uneval_cow.rs), together with a string-emission entry point
`to_string` (src/lib.rs) that renders a value as Rust `const` source text
via the `Debug` trait.

Shallow embedding conventions:
* Rust's `UnevalCow<'a, B>` enum becomes a two-constructor inductive over
  the value type.  In a value-semantics embedding a borrowed reference to
  data `d` and an owned copy of `d` hold the same value, so both
  constructors carry an `α`; the distinction that matters (which variant
  is active, and when deep copies happen) is kept explicit.
* Operations that may clone return the number of deep copies (`to_owned`
  calls / buffer copies of already-held contents) they perform, so that
  "performs exactly one clone" claims are statable.
* For the string instantiation, Rust's `String` (contents plus a heap
  capacity) is modelled by `RString`; `String::with_capacity` and
  `String::push_str` are modelled so that capacity claims are statable.
  `push_str` reserves exactly the needed space when the existing capacity
  is insufficient; every code path verified here stays within capacity,
  so no claim depends on the growth policy.
* `fmt::Debug` formatting becomes a function producing a `String`; the
  wrapped shape's own `Debug` output is a parameter (`dbg`), and the
  `TypeId::of::<B>() == TypeId::of::<str>()` runtime check becomes a
  boolean parameter fixed at each instantiation.
-/

namespace ConstUneval

/-- Model of the `UnevalCow<'a, B>` enum (src/uneval_cow.rs, lines
125-134): `Borrowed` holds a reference to data of shape `B`, `Owned`
holds the owned counterpart.  Both dereference to the same value type. -/
inductive UnevalCow (α : Type) where
  | Borrowed : α → UnevalCow α
  | Owned : α → UnevalCow α
deriving DecidableEq

namespace UnevalCow

variable {α : Type}

/-- Model of `impl Deref for UnevalCow` (src/uneval_cow.rs, lines
211-220): `Borrowed` yields the referenced data, `Owned` yields
`owned.borrow()`, which views the same value. -/
def deref : UnevalCow α → α
  | Borrowed b => b
  | Owned o => o

/-- `true` exactly when the `Borrowed` variant is active. -/
def isBorrowed : UnevalCow α → Bool
  | Borrowed _ => true
  | Owned _ => false

/-- `true` exactly when the `Owned` variant is active. -/
def isOwned : UnevalCow α → Bool
  | Borrowed _ => false
  | Owned _ => true

/-- Model of `impl Clone for UnevalCow` (src/uneval_cow.rs, lines
136-153): `Borrowed(b)` is copied as `Borrowed(b)` (the reference is
duplicated, no deep copy), `Owned(o)` becomes `Owned(o.borrow().to_owned())`
(one deep copy of the contents).  The second component counts the deep
copies performed. -/
def clone : UnevalCow α → UnevalCow α × Nat
  | Borrowed b => (Borrowed b, 0)
  | Owned o => (Owned o, 1)

/-- Model of `UnevalCow::to_mut` (src/uneval_cow.rs, lines 156-167): on
`Borrowed(b)` the container is replaced by `Owned(b.to_owned())` (one
deep copy) and the new owned storage is returned; on `Owned(o)` the
existing storage is returned with no copy.  The first component is the
container after the call (the returned `&mut` points into its owned
storage); the second counts the deep copies performed. -/
def to_mut : UnevalCow α → UnevalCow α × Nat
  | Borrowed b => (Owned b, 1)
  | Owned o => (Owned o, 0)

/-- Model of `UnevalCow::into_owned` (src/uneval_cow.rs, lines 203-208):
consumes the container; `Borrowed(b)` returns `b.to_owned()` (one deep
copy), `Owned(o)` returns `o` (no copy).  The second component counts
the deep copies performed. -/
def into_owned : UnevalCow α → α × Nat
  | Borrowed b => (b, 1)
  | Owned o => (o, 0)

/-- Model of `impl PartialEq for UnevalCow` (src/uneval_cow.rs, lines
234-243): equality of the dereferenced values, for a shape whose own
equality is `eqB`. -/
def beq (eqB : α → α → Bool) (a b : UnevalCow α) : Bool :=
  eqB a.deref b.deref

/-- Model of `impl Ord for UnevalCow` (src/uneval_cow.rs, lines 224-232):
comparison of the dereferenced values, for a shape whose own comparison
is `cmpB`. -/
def cmp (cmpB : α → α → Ordering) (a b : UnevalCow α) : Ordering :=
  cmpB a.deref b.deref

/-- Model of `impl Hash for UnevalCow` (src/uneval_cow.rs, lines
304-312): the hash fed to the hasher state is the hash of the
dereferenced value, for a shape whose own hash is `hashB`. -/
def hash (hashB : α → Nat) (a : UnevalCow α) : Nat :=
  hashB a.deref

end UnevalCow

/-- Model of Rust's `String`: the character contents together with the
heap capacity (in the same length units as `String.length`). -/
structure RString where
  data : String
  cap : Nat
deriving DecidableEq

namespace RString

/-- Model of `String::with_capacity(n)`: empty contents, capacity `n`. -/
def with_capacity (n : Nat) : RString := ⟨"", n⟩

/-- Model of `String::push_str`: appends the text; capacity is unchanged
when the result fits, and otherwise grows to exactly the needed length
(no code path verified here exceeds capacity, so the growth policy is
never relied on). -/
def pushStr (r : RString) (s : String) : RString :=
  ⟨r.data ++ s, max r.cap (r.data.length + s.length)⟩

end RString

/-- Model of `str::to_owned`: a fresh `String` holding the same text,
with capacity equal to its length.  One deep copy. -/
def strToOwned (s : String) : RString := ⟨s, s.length⟩

/-- The `UnevalCow<'a, str>` instantiation (src/uneval_cow.rs):
`Borrowed` holds a `&str` (just its text), `Owned` holds a `String`
(text plus capacity). -/
inductive UnevalCowStr where
  | Borrowed : String → UnevalCowStr
  | Owned : RString → UnevalCowStr
deriving DecidableEq

namespace UnevalCowStr

/-- `Deref` for the string instantiation (src/uneval_cow.rs, lines
211-220): the text viewed through either variant. -/
def deref : UnevalCowStr → String
  | Borrowed s => s
  | Owned r => r.data

/-- `true` exactly when the `Owned` variant is active. -/
def isOwned : UnevalCowStr → Bool
  | Borrowed _ => false
  | Owned _ => true

/-- `UnevalCow::<str>::to_mut` (src/uneval_cow.rs, lines 156-167):
`Borrowed(s)` becomes `Owned(s.to_owned())` with one deep copy,
`Owned(r)` is returned unchanged with no copy.  Second component counts
deep copies. -/
def to_mut : UnevalCowStr → UnevalCowStr × Nat
  | Borrowed s => (Owned (strToOwned s), 1)
  | Owned r => (Owned r, 0)

/-- Model of `impl AddAssign<&'a str> for UnevalCow<'a, str>`
(src/uneval_cow.rs, lines 340-353):

* if `self.is_empty()`, `*self = Borrowed(rhs)`;
* else if `rhs` is non-empty: if `self` is `Borrowed(lhs)`, build
  `s = String::with_capacity(lhs.len() + rhs.len())`, `s.push_str(lhs)`
  (the one deep copy of the held contents) and set `*self = Owned(s)`;
  then `self.to_mut().push_str(rhs)`.

Second component counts deep copies of contents already held by `self`
(the buffer copy of `lhs`, plus any copy made by `to_mut`). -/
def addAssignStr (self : UnevalCowStr) (rhs : String) : UnevalCowStr × Nat :=
  if self.deref.isEmpty then (Borrowed rhs, 0)
  else if rhs.isEmpty then (self, 0)
  else
    let step : UnevalCowStr × Nat :=
      match self with
      | Borrowed lhs =>
          (Owned ((RString.with_capacity (lhs.length + rhs.length)).pushStr lhs), 1)
      | Owned r => (Owned r, 0)
    let tm := step.1.to_mut
    match tm.1 with
    | Owned r => (Owned (r.pushStr rhs), step.2 + tm.2)
    | Borrowed s => (Borrowed s, step.2 + tm.2)

/-- Model of `impl AddAssign<UnevalCow<'a, str>> for UnevalCow<'a, str>`
(src/uneval_cow.rs, lines 355-368): as `addAssignStr`, except that an
empty `self` takes over the right operand itself (`*self = rhs`), and
the appended text and length are the right operand's dereferenced
contents. -/
def addAssignCow (self rhs : UnevalCowStr) : UnevalCowStr × Nat :=
  if self.deref.isEmpty then (rhs, 0)
  else if rhs.deref.isEmpty then (self, 0)
  else
    let step : UnevalCowStr × Nat :=
      match self with
      | Borrowed lhs =>
          (Owned ((RString.with_capacity (lhs.length + rhs.deref.length)).pushStr lhs), 1)
      | Owned r => (Owned r, 0)
    let tm := step.1.to_mut
    match tm.1 with
    | Owned r => (Owned (r.pushStr rhs.deref), step.2 + tm.2)
    | Borrowed s => (Borrowed s, step.2 + tm.2)

end UnevalCowStr

/-- Rust `Debug` escaping for one character of a string literal, as in
`char::escape_debug` restricted to the characters that occur in this
development: quote, backslash, newline, carriage return and tab are
escaped, everything else is emitted as itself. -/
def escapeDebugChar (c : Char) : String :=
  if c = '"' then "\\\""
  else if c = '\\' then "\\\\"
  else if c = '\n' then "\\n"
  else if c = '\r' then "\\r"
  else if c = '\t' then "\\t"
  else String.singleton c

/-- Rust `Debug` output for `str`: the text escaped and wrapped in
double quotes. -/
def rustStrDbg (s : String) : String :=
  "\"" ++ String.join (s.toList.map escapeDebugChar) ++ "\""

/-- Model of `impl fmt::Debug for UnevalCow` (src/uneval_cow.rs, lines
255-277).  `dbg` is the wrapped shape's own `Debug` rendering (for the
`Owned` branch the owned counterpart's `Debug` agrees with it on the
shared value, e.g. `String` and `str` both print the quoted literal);
` is_str` is the result of the runtime check
`TypeId::of::<B>() == TypeId::of::<str>()`.

* `Borrowed(b)` prints `UnevalCow::Borrowed( &` followed by the value's
  own rendering and packed with ` )` — the `&` is a literal in the
  format string on line 265, for every shape including `str`;
* `Owned(o)` prints the same, except that when `B` is `str` the literal
  `&` is omitted (line 270). -/
def debugFmt (dbg : α → String) ( is_str : Bool) : ConstUneval.UnevalCow α → String
  | UnevalCow.Borrowed b => "UnevalCow::Borrowed( &" ++ dbg b ++ " )"
  | UnevalCow.Owned o =>
      if is_str then "UnevalCow::Borrowed( " ++ dbg o ++ " )"
      else "UnevalCow::Borrowed( &" ++ dbg o ++ " )"

/-- The `Debug` rendering of `UnevalCow<str>` values: `debugFmt` with the
`str` Debug output and the type check true. -/
def renderStr (c : UnevalCow String) : String := debugFmt rustStrDbg true c

/-- The `Debug` rendering of `UnevalCow<B>` for a non-string shape `B`
with `Debug` output `dbg`: `debugFmt` with the type check false. -/
def renderGen (dbg : α → String) (c : UnevalCow α) : String := debugFmt dbg false c

/-- Model of `to_string` (src/lib.rs, lines 96-99):
`format!("const ... : ... = ...;", name, type_name, value)` where
`type_name = ty.unwrap_or(std::any::type_name::<T>())` and the value is
rendered by its `Debug` implementation (`render`), here a parameter
standing for `format!` with the alternate `:#?` specifier.
`typeNameOfT` stands for `std::any::type_name::<T>()`. -/
def to_string (render : α → String) (typeNameOfT : String)
    (name : String) (value : α) (ty : Option String) : String :=
  "const " ++ name ++ ": " ++ (ty.getD typeNameOfT) ++ " = " ++ render value ++ ";"

/-! Theorems about the claims. -/

/-- C1: the claim that rendering is variant-independent for every wrapped
shape fails on the code at the string shape: the `Borrowed` branch of
`fmt::Debug` (line 265) always emits a literal `&` before the value's own
rendering, including for `str`, while the `Owned` branch omits it for
`str` (line 270).  At the datum `"Hello"` the two variants therefore
render differently — contradicting the repository's own test
`test_debug_primitive` (tests/uneval_cow.rs, lines 86-95), which expects
both to render as `UnevalCow::Borrowed( "Hello" )`. -/
theorem C1_render_not_variant_independent_for_str :
    renderStr (UnevalCow.Borrowed "Hello") = "UnevalCow::Borrowed( &\"Hello\" )" ∧
    renderStr (UnevalCow.Owned "Hello") = "UnevalCow::Borrowed( \"Hello\" )" ∧
    renderStr (UnevalCow.Borrowed "Hello") ≠ renderStr (UnevalCow.Owned "Hello") := by
  refine ⟨rfl, rfl, ?_⟩
  decide

/-- C2: the claim that `render(Borrowed("Hello"))` yields exactly
`UnevalCow::Borrowed( "Hello" )` fails on the code: the `Borrowed` branch
of `fmt::Debug` (line 265) emits a literal `&` before the quoted literal,
producing `UnevalCow::Borrowed( &"Hello" )` — while the repository's own
test `test_debug_primitive` (tests/uneval_cow.rs, lines 87-90) asserts the
un-ampersanded form the claim states. -/
theorem C2_borrowed_str_renders_with_ampersand :
    renderStr (UnevalCow.Borrowed "Hello") = "UnevalCow::Borrowed( &\"Hello\" )" ∧
    renderStr (UnevalCow.Borrowed "Hello") ≠ "UnevalCow::Borrowed( \"Hello\" )" := by
  refine ⟨rfl, ?_⟩
  decide

/-- C3: `to_mut` on a `Borrowed` container performs exactly one clone,
transitions to `Owned`, and the returned mutable storage holds the old
contents; on an `Owned` container it returns the existing storage with no
copy; a second call on the result clones nothing, so two successive calls
perform at most one clone in total, and the dereferenced contents after
`to_mut` equal the contents before. -/
theorem C3_to_mut_spec {α : Type} (c : UnevalCow α) :
    c.to_mut.1 = UnevalCow.Owned c.deref ∧
    c.to_mut.2 = (if c.isBorrowed then 1 else 0) ∧
    c.to_mut.1.deref = c.deref ∧
    c.to_mut.1.to_mut = (c.to_mut.1, 0) ∧
    c.to_mut.2 + c.to_mut.1.to_mut.2 ≤ 1 := by
  cases c <;> simp [UnevalCow.to_mut, UnevalCow.deref, UnevalCow.isBorrowed]

/-- C4 counterexample: the claim that no operation ever turns an `Owned`
container into a `Borrowed` one fails on the code: `add_assign`
(src/uneval_cow.rs, line 342-343) replaces any empty container — even an
empty `Owned` one — by `Borrowed(rhs)`.  Appending `"x"` to
`Owned(String::with_capacity(0))` yields the `Borrowed` variant. -/
theorem C4_owned_empty_becomes_borrowed :
    (UnevalCowStr.Owned ⟨"", 0⟩).isOwned = true ∧
    (UnevalCowStr.addAssignStr (UnevalCowStr.Owned ⟨"", 0⟩) "x").1 =
      UnevalCowStr.Borrowed "x" := by
  exact ⟨rfl, rfl⟩

/-- C4 amended: `to_mut` never leaves the `Owned` variant, and the append
operations keep a non-empty `Owned` container `Owned`; only appending to
an empty container can replace an `Owned` container by a `Borrowed` one. -/
theorem C4_owned_stays_owned_unless_empty (r : RString) (rhs : String)
    (rc : UnevalCowStr) (h : r.data.isEmpty = false) :
    (UnevalCowStr.Owned r).to_mut = (UnevalCowStr.Owned r, 0) ∧
    (UnevalCowStr.addAssignStr (UnevalCowStr.Owned r) rhs).1.isOwned = true ∧
    (UnevalCowStr.addAssignCow (UnevalCowStr.Owned r) rc).1.isOwned = true := by
  refine ⟨rfl, ?_, ?_⟩ <;>
    simp only [UnevalCowStr.addAssignStr, UnevalCowStr.addAssignCow,
      UnevalCowStr.deref, h, Bool.false_eq_true, if_false] <;>
    split <;> simp [UnevalCowStr.to_mut, UnevalCowStr.isOwned]

/-- C4 amended, witness. -/
theorem C4_owned_stays_owned_unless_empty_witness :
    ("a" : String).isEmpty = false ∧
    ((UnevalCowStr.Owned ⟨"a", 1⟩).to_mut = (UnevalCowStr.Owned ⟨"a", 1⟩, 0) ∧
     (UnevalCowStr.addAssignStr (UnevalCowStr.Owned ⟨"a", 1⟩) "b").1.isOwned = true ∧
     (UnevalCowStr.addAssignCow (UnevalCowStr.Owned ⟨"a", 1⟩)
        (UnevalCowStr.Borrowed "b")).1.isOwned = true) :=
  ⟨by decide,
   C4_owned_stays_owned_unless_empty ⟨"a", 1⟩ "b" (UnevalCowStr.Borrowed "b") (by decide)⟩

/-- The empty string literal is empty. -/
theorem str_isEmpty_empty : ("" : String).isEmpty = true := by decide

/-- Helper for C5: the dereferenced result of `addAssignStr` is always
the left operand's text followed by the appended text. -/
theorem addAssignStr_deref (self : UnevalCowStr) (t : String) :
    (self.addAssignStr t).1.deref = self.deref ++ t := by
  cases self with
  | Borrowed l =>
      by_cases h1 : l.isEmpty
      · simp [UnevalCowStr.addAssignStr, UnevalCowStr.deref, h1,
          (String.isEmpty_iff l).mp h1, str_isEmpty_empty]
      · by_cases h2 : t.isEmpty
        · simp [UnevalCowStr.addAssignStr, UnevalCowStr.deref, h1, h2,
            (String.isEmpty_iff t).mp h2, str_isEmpty_empty]
        · simp [UnevalCowStr.addAssignStr, UnevalCowStr.deref, h1, h2,
            UnevalCowStr.to_mut, RString.with_capacity, RString.pushStr]
  | Owned r =>
      by_cases h1 : r.data.isEmpty
      · simp [UnevalCowStr.addAssignStr, UnevalCowStr.deref, h1,
          (String.isEmpty_iff r.data).mp h1, str_isEmpty_empty]
      · by_cases h2 : t.isEmpty
        · simp [UnevalCowStr.addAssignStr, UnevalCowStr.deref, h1, h2,
            (String.isEmpty_iff t).mp h2, str_isEmpty_empty]
        · simp [UnevalCowStr.addAssignStr, UnevalCowStr.deref, h1, h2,
            UnevalCowStr.to_mut, RString.pushStr]

/-- Helper for C5: the dereferenced result of `addAssignCow` is always
the left operand's text followed by the right operand's text. -/
theorem addAssignCow_deref (self rc : UnevalCowStr) :
    (self.addAssignCow rc).1.deref = self.deref ++ rc.deref := by
  cases self with
  | Borrowed l =>
      cases rc with
      | Borrowed m =>
          by_cases h1 : l.isEmpty
          · simp [UnevalCowStr.addAssignCow, UnevalCowStr.deref, h1,
              (String.isEmpty_iff l).mp h1, str_isEmpty_empty]
          · by_cases h2 : m.isEmpty
            · simp [UnevalCowStr.addAssignCow, UnevalCowStr.deref, h1, h2,
                (String.isEmpty_iff m).mp h2, str_isEmpty_empty]
            · simp [UnevalCowStr.addAssignCow, UnevalCowStr.deref, h1, h2,
                UnevalCowStr.to_mut, RString.with_capacity, RString.pushStr]
      | Owned q =>
          by_cases h1 : l.isEmpty
          · simp [UnevalCowStr.addAssignCow, UnevalCowStr.deref, h1,
              (String.isEmpty_iff l).mp h1, str_isEmpty_empty]
          · by_cases h2 : q.data.isEmpty
            · simp [UnevalCowStr.addAssignCow, UnevalCowStr.deref, h1, h2,
                (String.isEmpty_iff q.data).mp h2, str_isEmpty_empty]
            · simp [UnevalCowStr.addAssignCow, UnevalCowStr.deref, h1, h2,
                UnevalCowStr.to_mut, RString.with_capacity, RString.pushStr]
  | Owned r =>
      cases rc with
      | Borrowed m =>
          by_cases h1 : r.data.isEmpty
          · simp [UnevalCowStr.addAssignCow, UnevalCowStr.deref, h1,
              (String.isEmpty_iff r.data).mp h1, str_isEmpty_empty]
          · by_cases h2 : m.isEmpty
            · simp [UnevalCowStr.addAssignCow, UnevalCowStr.deref, h1, h2,
                (String.isEmpty_iff m).mp h2, str_isEmpty_empty]
            · simp [UnevalCowStr.addAssignCow, UnevalCowStr.deref, h1, h2,
                UnevalCowStr.to_mut, RString.pushStr]
      | Owned q =>
          by_cases h1 : r.data.isEmpty
          · simp [UnevalCowStr.addAssignCow, UnevalCowStr.deref, h1,
              (String.isEmpty_iff r.data).mp h1, str_isEmpty_empty]
          · by_cases h2 : q.data.isEmpty
            · simp [UnevalCowStr.addAssignCow, UnevalCowStr.deref, h1, h2,
                (String.isEmpty_iff q.data).mp h2, str_isEmpty_empty]
            · simp [UnevalCowStr.addAssignCow, UnevalCowStr.deref, h1, h2,
                UnevalCowStr.to_mut, RString.pushStr]

/-- C5: string concatenation follows the lazy-copy policy: appending to
an empty container replaces it by `Borrowed(rhs)` (respectively takes over
the right operand) with no clone; appending non-empty text to a non-empty
`Borrowed` container performs exactly one clone into owned storage whose
capacity is the sum of both operands' lengths, then appends; and in every
case the dereferenced result is the left operand's text followed by the
right operand's text. -/
theorem C5_concat_spec (self : UnevalCowStr) (lhs rhs : String) (rc : UnevalCowStr) :
    (self.deref.isEmpty = true →
        self.addAssignStr rhs = (UnevalCowStr.Borrowed rhs, 0) ∧
        self.addAssignCow rc = (rc, 0)) ∧
    (lhs.isEmpty = false → rhs.isEmpty = false →
        (UnevalCowStr.Borrowed lhs).addAssignStr rhs =
          (UnevalCowStr.Owned ⟨lhs ++ rhs, lhs.length + rhs.length⟩, 1)) ∧
    (self.addAssignStr rhs).1.deref = self.deref ++ rhs ∧
    (self.addAssignCow rc).1.deref = self.deref ++ rc.deref := by
  refine ⟨fun h1 => ?_, fun hl hr => ?_,
    addAssignStr_deref self rhs, addAssignCow_deref self rc⟩
  · constructor <;>
      simp [UnevalCowStr.addAssignStr, UnevalCowStr.addAssignCow, h1]
  · simp only [UnevalCowStr.addAssignStr, UnevalCowStr.deref, hl, hr,
      Bool.false_eq_true, if_false, UnevalCowStr.to_mut,
      RString.with_capacity, RString.pushStr]
    simp

/-- C5, witness. -/
theorem C5_concat_spec_witness :
    (UnevalCowStr.Borrowed "").deref.isEmpty = true ∧
    ("ab" : String).isEmpty = false ∧ ("cd" : String).isEmpty = false ∧
    ((UnevalCowStr.Borrowed "").addAssignStr "cd" = (UnevalCowStr.Borrowed "cd", 0) ∧
     (UnevalCowStr.Borrowed "").addAssignCow (UnevalCowStr.Borrowed "cd") =
       (UnevalCowStr.Borrowed "cd", 0)) ∧
    (UnevalCowStr.Borrowed "ab").addAssignStr "cd" =
      (UnevalCowStr.Owned ⟨"ab" ++ "cd", ("ab" : String).length + ("cd" : String).length⟩, 1) ∧
    ((UnevalCowStr.Borrowed "ab").addAssignStr "cd").1.deref = "ab" ++ "cd" :=
  ⟨by decide, by decide, by decide,
   (C5_concat_spec (UnevalCowStr.Borrowed "") "ab" "cd" (UnevalCowStr.Borrowed "cd")).1 rfl,
   (C5_concat_spec (UnevalCowStr.Borrowed "ab") "ab" "cd" (UnevalCowStr.Borrowed "cd")).2.1
     (by decide) (by decide),
   (C5_concat_spec (UnevalCowStr.Borrowed "ab") "ab" "cd" (UnevalCowStr.Borrowed "cd")).2.2.1⟩

/-- C6: read-only dereference is a transparent round-trip independent of
variant: a container built from a borrowed reference to `v` dereferences
to `v`, and a container built from an owned clone of `v` (the same value
in this embedding) dereferences to `v`. -/
theorem C6_deref_round_trip {α : Type} (v : α) :
    (UnevalCow.Borrowed v).deref = v ∧ (UnevalCow.Owned v).deref = v :=
  ⟨rfl, rfl⟩

/-- C7: `into_owned` returns owned data equal to the dereferenced
contents, cloning exactly once on a `Borrowed` container and transferring
without copy on an `Owned` one. -/
theorem C7_into_owned_spec {α : Type} (c : UnevalCow α) :
    c.into_owned.1 = c.deref ∧
    c.into_owned.2 = (if c.isBorrowed then 1 else 0) := by
  cases c <;> simp [UnevalCow.into_owned, UnevalCow.deref, UnevalCow.isBorrowed]

/-- C8: equality, ordering and hashing are structural over the
dereferenced value: two containers whose dereferenced data are equal —
in whichever variants — compare equal (for a reflexive shape equality),
hash identically, and compare identically against any third container
under both ordering and equality. -/
theorem C8_structural_eq_ord_hash {α : Type} (eqB : α → α → Bool)
    (cmpB : α → α → Ordering) (hashB : α → Nat) (a b : UnevalCow α)
    (h : a.deref = b.deref) (hrefl : ∀ x, eqB x x = true) :
    UnevalCow.beq eqB a b = true ∧
    UnevalCow.hash hashB a = UnevalCow.hash hashB b ∧
    (∀ c, UnevalCow.cmp cmpB a c = UnevalCow.cmp cmpB b c ∧
          UnevalCow.cmp cmpB c a = UnevalCow.cmp cmpB c b) ∧
    (∀ c, UnevalCow.beq eqB a c = UnevalCow.beq eqB b c ∧
          UnevalCow.beq eqB c a = UnevalCow.beq eqB c b) := by
  simp [UnevalCow.beq, UnevalCow.cmp, UnevalCow.hash, h, hrefl]

/-- C8, witness: a `Borrowed` and an `Owned` container over `Nat` holding
the value `5`. -/
theorem C8_structural_eq_ord_hash_witness :
    (UnevalCow.Borrowed 5 : UnevalCow Nat).deref = (UnevalCow.Owned 5).deref ∧
    (∀ x : Nat, (x == x) = true) ∧
    (UnevalCow.beq (fun x y => x == y) (UnevalCow.Borrowed 5)
       (UnevalCow.Owned 5 : UnevalCow Nat) = true ∧
     UnevalCow.hash id (UnevalCow.Borrowed 5 : UnevalCow Nat) =
       UnevalCow.hash id (UnevalCow.Owned 5) ∧
     (∀ c, UnevalCow.cmp compare (UnevalCow.Borrowed 5 : UnevalCow Nat) c =
             UnevalCow.cmp compare (UnevalCow.Owned 5) c ∧
           UnevalCow.cmp compare c (UnevalCow.Borrowed 5) =
             UnevalCow.cmp compare c (UnevalCow.Owned 5)) ∧
     (∀ c, UnevalCow.beq (fun x y => x == y) (UnevalCow.Borrowed 5 : UnevalCow Nat) c =
             UnevalCow.beq (fun x y => x == y) (UnevalCow.Owned 5) c ∧
           UnevalCow.beq (fun x y => x == y) c (UnevalCow.Borrowed 5) =
             UnevalCow.beq (fun x y => x == y) c (UnevalCow.Owned 5))) :=
  ⟨rfl, fun x => by simp,
   C8_structural_eq_ord_hash (fun x y => x == y) compare id
     (UnevalCow.Borrowed 5) (UnevalCow.Owned 5) rfl (fun x => by simp)⟩

/-- C9: the string-emission entry point returns exactly
`const NAME: TYPE = RENDERED_VALUE;`, with the caller-supplied type
annotation when one is given and otherwise the type name derived from
the value's own type. -/
theorem C9_to_string_format {α : Type} (render : α → String)
    (typeNameOfT name : String) (value : α) (t : String) :
    to_string render typeNameOfT name value (some t) =
      "const " ++ name ++ ": " ++ t ++ " = " ++ render value ++ ";" ∧
    to_string render typeNameOfT name value none =
      "const " ++ name ++ ": " ++ typeNameOfT ++ " = " ++ render value ++ ";" :=
  ⟨rfl, rfl⟩

/-- C10: cloning preserves the active variant and the dereferenced
contents: a `Borrowed` container is cloned as the same `Borrowed`
reference with no deep copy, an `Owned` container as an `Owned` container
holding one fresh deep copy of the same value. -/
theorem C10_clone_preserves_variant {α : Type} (c : UnevalCow α) :
    c.clone.1 = c ∧
    c.clone.2 = (if c.isBorrowed then 0 else 1) ∧
    c.clone.1.deref = c.deref := by
  cases c <;> simp [UnevalCow.clone, UnevalCow.deref, UnevalCow.isBorrowed]

end ConstUneval
